import Mathlib

/-!
Shallow embedding of `src/main.rs` of the xfish repository: the CSV
geometry parser, the address normalization, the query-parameter phase of
`handle_response`, and the X11 event loop, together with theorems checking
the specification's claims against them.

Conventions:
* Rust `i16` coordinates are modelled as `Int`; the `f64 as i16` cast is
  modelled explicitly (`asI16`), which is a saturating cast in Rust.
* Rust string splitting/trimming is modelled structurally over `List Char`
  (`splitOnChar`, `trimList`) so that every definition evaluates by kernel
  reduction; the semantics matches Rust `str::split` (separators delimit
  fields, so a trailing separator yields a trailing empty field) and
  `str::trim`.
* Panics (out-of-bounds indexing, `unwrap` on `None`) are modelled
  explicitly: `none` (or a dedicated constructor) means the Rust code
  panics.
* The event loop's side effects (poly-line requests, pacing sleeps) are
  recorded explicitly; the blocking wait is modelled by consuming a list
  of incoming events.
-/

namespace XFish

/-- Models `x11rb::protocol::xproto::Point` as used by `main.rs`
(fields are `i16` in Rust; the range is established by the cast). -/
structure Point where
  x : Int
  y : Int
deriving DecidableEq, Repr

/-- Models Rust `str::split` with a one-character separator (the program
splits on `"\n"` and on `','`): separators delimit fields, consecutive or
trailing separators produce empty fields, and the empty input is the
single empty field. -/
def splitOnChar (sep : Char) : List Char → List (List Char)
  | [] => [[]]
  | c :: cs =>
      match splitOnChar sep cs with
      | [] => [[]]
      | g :: gs => if c == sep then [] :: g :: gs else (c :: g) :: gs

/-- Models Rust `str::trim`: drop leading and trailing whitespace. -/
def trimList (cs : List Char) : List Char :=
  ((cs.dropWhile Char.isWhitespace).reverse.dropWhile Char.isWhitespace).reverse

/-- Digit run split, used to read the integer and fraction digit runs of
a numeric literal. -/
def spanDigits (cs : List Char) : List Char × List Char :=
  cs.span Char.isDigit

/-- Value of a run of decimal digit characters. -/
def digitsVal (ds : List Char) : Nat :=
  ds.foldl (fun acc c => acc * 10 + (c.toNat - ('0').toNat)) 0

/-- Optional leading sign of a numeric literal. -/
def readSign : List Char → Int × List Char
  | '-' :: rest => (-1, rest)
  | '+' :: rest => (1, rest)
  | cs => (1, cs)

/-- Models `s.parse::<f64>()` followed by truncation toward zero, for
decimal literals `[+-]? (digits | digits . digits* | digits* . digits)`
(the forms occurring in this program's CSV data; exponent/inf/nan forms
are treated as non-numeric). Truncation toward zero of `± (i + f)` with
`0 ≤ f < 1` is `± i`, so the fraction digits only need to be
syntax-checked. Returns `none` when the token is not a number. -/
def parseF64Trunc (cs : List Char) : Option Int :=
  let (sgn, cs1) := readSign cs
  let (ds1, cs2) := spanDigits cs1
  match cs2 with
  | [] => if ds1.isEmpty then none else some (sgn * digitsVal ds1)
  | '.' :: cs3 =>
      let (ds2, cs4) := spanDigits cs3
      if cs4.isEmpty && !(ds1.isEmpty && ds2.isEmpty)
      then some (sgn * digitsVal ds1)
      else none
  | _ => none

/-- Models the Rust cast `f as i16` applied to a truncated value: the cast
saturates at the bounds of `i16` (Rust reference: float-to-int `as` casts
round toward zero and saturate). -/
def asI16 (v : Int) : Int :=
  if v < -32768 then -32768 else if v > 32767 then 32767 else v

/-- Models `item.trim().parse::<f64>().ok().and_then(|i| Some(i as i16))`
from `main.rs` line 71, on the characters of one comma-separated token. -/
def tokenToCoord (token : List Char) : Option Int :=
  (parseF64Trunc (trimList token)).map asI16

/-- Models `.chunks(2).map(|item| Point { x: item[0], y: item[1] })` from
`main.rs` lines 73-74. `chunks(2)` on an odd-length slice yields a final
chunk of length 1, on which `item[1]` panics (index out of bounds); the
panic is modelled by `none`. -/
def chunkPairs : List Int → Option (List Point)
  | [] => some []
  | [_] => none
  | x :: y :: rest => (chunkPairs rest).map (Point.mk x y :: ·)

/-- Models the per-row closure of `main.rs` lines 68-76: split the line on
commas, keep the tokens that parse, then pair them up. `none` models the
`item[1]` panic on an odd number of surviving values. -/
def fishLine (line : List Char) : Option (List Point) :=
  chunkPairs ((splitOnChar ',' line).filterMap tokenToCoord)

/-- Models the construction of `fish: Vec<Vec<Point>>` in `main.rs`
lines 66-77: split the input on newlines and parse each row; a panic in
any row (modelled by `none`) aborts the whole parse. -/
def parseFish (s : String) : Option (List (List Point)) :=
  (splitOnChar '\n' s.toList).mapM fishLine

/-- Models `main.rs` lines 80-82: append `":0.0"` when the address
contains no `:` separator, otherwise leave it unchanged. -/
def normalizeAddress (address : String) : String :=
  if !(address.toList.contains ':') then address ++ ":0.0" else address

/-- A query-string parameter map: ordered key/value pairs. -/
def QueryMap := List (String × String)

/-- Models `params.first(key)`: the first value bound to `key`. -/
def firstVal (m : QueryMap) (key : String) : Option String :=
  (m.find? (fun p => p.1 == key)).map Prod.snd

/-- Outcome of the query-parameter phase of `handle_response`
(`main.rs` lines 46-61), before any connection attempt. -/
inductive HandlerStep where
  | inputError (msg : String)
  | proceed (address : String) (time : Option String)
  | panicked
deriving DecidableEq, Repr

/-- Models `main.rs` lines 48-61: extract the `address` parameter (the
request's query map is an `Option`), returning the input error when it is
absent; then re-read the query map with `.unwrap()` — the `Option.none`
case of that second read is the potential panic — and read the `time`
parameter from it. -/
def queryPhase (params : Option QueryMap) : HandlerStep :=
  match params.bind (fun m => firstVal m "address") with
  | none => .inputError "need address in query params"
  | some addr =>
      match params with
      | none => .panicked
      | some m => .proceed addr (firstVal m "time")

/-- Whether the query phase hit the modelled `unwrap` panic. -/
def HandlerStep.isPanicked : HandlerStep → Bool
  | .panicked => true
  | _ => false

/-- Events delivered by `conn.wait_for_event()`, restricted to the fields
`main.rs` inspects: `Expose`, `ClientMessage` (format, destination window,
first 32-bit data word), `Error` (detail), and any other event kind. -/
inductive XEvent where
  | expose
  | clientMessage (format : Nat) (window : Nat) (data0 : Nat)
  | error (detail : String)
  | unknown (desc : String)
deriving DecidableEq, Repr

/-- Result of handling one event in the loop of `main.rs` lines 102-124:
either the loop continues waiting (recording the poly-line requests issued
and the number of pacing sleeps performed while handling the event), or it
breaks out successfully, or it returns an error. -/
inductive StepResult where
  | continueWaiting (draws : List (List Point)) (delays : Nat)
  | exitSuccess
  | exitFailure (msg : String)
deriving DecidableEq, Repr

/-- Models one iteration body of the event loop (`main.rs` lines 104-123):
* `Expose`: one `poly_line` request per polyline of `fish`, in order, each
  followed by a 7 ms sleep and a flush; then back to waiting.
* `ClientMessage`: `break` (normal exit) exactly when format is 32, the
  destination is the created window, and the first data word is the
  `WM_DELETE_WINDOW` atom; otherwise fall through and keep waiting.
* `Error`: return `Err` carrying the error detail.
* anything else: printed and ignored. -/
def handleEvent (winId deleteAtom : Nat) (fish : List (List Point)) :
    XEvent → StepResult
  | .expose => .continueWaiting fish fish.length
  | .clientMessage format window data0 =>
      if format == 32 && window == winId && data0 == deleteAtom
      then .exitSuccess
      else .continueWaiting [] 0
  | .error detail => .exitFailure ("Got an unexpected error: " ++ detail)
  | .unknown _ => .continueWaiting [] 0

/-- Terminal status of a run of the event loop on a finite event stream:
the loop broke out normally, returned an error, or is still blocked
waiting for the next event. -/
inductive Outcome where
  | success
  | failure (msg : String)
  | waiting
deriving DecidableEq, Repr

/-- A finished run: terminal status, all poly-line requests issued in
order, total number of pacing sleeps, and the events the loop never
processed because it had already exited. -/
structure LoopRun where
  outcome : Outcome
  draws : List (List Point)
  delays : Nat
  unprocessed : List XEvent
deriving DecidableEq, Repr

/-- Runs the event loop of `main.rs` lines 102-124 over a finite stream of
incoming events, accumulating issued requests and sleeps. -/
def runLoop (winId deleteAtom : Nat) (fish : List (List Point)) :
    List XEvent → List (List Point) → Nat → LoopRun
  | [], draws, delays => ⟨.waiting, draws, delays, []⟩
  | e :: rest, draws, delays =>
      match handleEvent winId deleteAtom fish e with
      | .continueWaiting d k =>
          runLoop winId deleteAtom fish rest (draws ++ d) (delays + k)
      | .exitSuccess => ⟨.success, draws, delays, rest⟩
      | .exitFailure m => ⟨.failure m, draws, delays, rest⟩

end XFish

namespace XFish

/-- C1: the claim says a row with an odd number of successfully-parsed
numeric tokens drops its last token and yields `floor(n/2)` points, parse
being total on such rows. The code instead panics: `chunks(2)` keeps the
final 1-element chunk and `item[1]` is out of bounds. Concretely, the row
`"1,2,3"` aborts the parse (modelled by `none`); in general any row whose
surviving value count is odd aborts. -/
theorem odd_row_parse_panics :
    parseFish "1,2,3" = none ∧
    ∀ vs : List Int, vs.length % 2 = 1 → chunkPairs vs = none := by
  constructor
  · decide
  · intro vs
    induction vs using chunkPairs.induct with
    | case1 => intro h; simp at h
    | case2 x => intro _; rfl
    | case3 x y rest ih =>
        intro h
        simp only [List.length_cons] at h
        simp [chunkPairs, ih (by omega)]

/-- Witness for `odd_row_parse_panics`: the singleton surviving list
`[5]` (odd length) makes the pairing panic. -/
theorem odd_row_parse_panics_witness : chunkPairs [(5 : Int)] = none :=
  odd_row_parse_panics.2 [5] (by decide)

/-- C2 counterexample: the input `"0,0,10,0,10,10\n"` does not parse to a
DrawingSet of exactly one Polyline: the trailing newline produces a second,
empty row, hence a second (empty) polyline. -/
theorem example_input_two_polylines_cex :
    parseFish "0,0,10,0,10,10\n" =
      some [[⟨0, 0⟩, ⟨10, 0⟩, ⟨10, 10⟩], []] ∧
    (parseFish "0,0,10,0,10,10\n").map List.length ≠ some 1 := by
  constructor <;> decide

/-- C2 amended: `"0,0,10,0,10,10\n"` parses to two Polylines — the
triangle `[(0,0),(10,0),(10,10)]` and a trailing empty polyline from the
final newline — and one expose event issues two poly-line requests in
that order (three points, then zero points) with two pacing delays, after
which the loop is back in the Waiting state with no event left over. -/
theorem example_input_render_run (winId deleteAtom : Nat) :
    runLoop winId deleteAtom [[⟨0, 0⟩, ⟨10, 0⟩, ⟨10, 10⟩], []]
        [.expose] [] 0 =
      ⟨.waiting, [[⟨0, 0⟩, ⟨10, 0⟩, ⟨10, 10⟩], []], 2, []⟩ ∧
    parseFish "0,0,10,0,10,10\n" =
      some [[⟨0, 0⟩, ⟨10, 0⟩, ⟨10, 10⟩], []] := by
  constructor
  · rfl
  · decide

/-- C3 counterexample: the out-of-range token `"40000"` is not rejected at
parse time: it contributes the clamped coordinate `32767`, and the
resulting Point `(32767, 0)` enters the DrawingSet. -/
theorem out_of_range_token_kept_cex :
    tokenToCoord "40000".toList = some 32767 ∧
    fishLine "40000,0".toList = some [⟨32767, 0⟩] := by
  constructor <;> decide

/-- C3 amended: out-of-range numeric tokens are not rejected; the
`f64 as i16` cast saturates, so every parsed coordinate lies in the
signed 16-bit range, values above the range clamp to `32767` and values
below it clamp to `-32768` (no wrap-around truncation). -/
theorem coordinates_saturate_to_i16 :
    (∀ cs v, tokenToCoord cs = some v → -32768 ≤ v ∧ v ≤ 32767) ∧
    (∀ w : Int, 32767 < w → asI16 w = 32767) ∧
    (∀ w : Int, w < -32768 → asI16 w = -32768) := by
  refine ⟨?_, ?_, ?_⟩
  · intro cs v h
    rw [tokenToCoord, Option.map_eq_some'] at h
    obtain ⟨w, -, rfl⟩ := h
    simp only [asI16]
    split_ifs <;> omega
  · intro w h
    simp only [asI16]
    split_ifs <;> omega
  · intro w h
    simp only [asI16]
    split_ifs; omega

/-- Witness for `coordinates_saturate_to_i16` at concrete inputs: the
token `"40000"` yields a coordinate inside the i16 range, and concrete
out-of-range values clamp to the bounds. -/
theorem coordinates_saturate_to_i16_witness :
    ((-32768 : Int) ≤ 32767 ∧ (32767 : Int) ≤ 32767) ∧
    asI16 40000 = 32767 ∧ asI16 (-40000) = -32768 :=
  ⟨coordinates_saturate_to_i16.1 "40000".toList 32767 (by decide),
   coordinates_saturate_to_i16.2.1 40000 (by decide),
   coordinates_saturate_to_i16.2.2 (-40000) (by decide)⟩

/-- C4: the loop exits successfully exactly on a client message of format
32, addressed to the created window, whose first data word is the
delete-window atom; a client message failing any of the three conditions,
an expose event, and any unknown event all leave the loop waiting; and a
matching close message ends the run with a success outcome, processing no
further events. -/
theorem close_handshake_exact (winId deleteAtom : Nat)
    (fish : List (List Point)) (f w d : Nat) :
    (handleEvent winId deleteAtom fish (.clientMessage f w d) =
        .exitSuccess ↔ f = 32 ∧ w = winId ∧ d = deleteAtom) ∧
    (¬(f = 32 ∧ w = winId ∧ d = deleteAtom) →
      handleEvent winId deleteAtom fish (.clientMessage f w d) =
        .continueWaiting [] 0) ∧
    handleEvent winId deleteAtom fish .expose =
      .continueWaiting fish fish.length ∧
    (∀ s, handleEvent winId deleteAtom fish (.unknown s) =
      .continueWaiting [] 0) ∧
    (∀ rest draws delays,
      runLoop winId deleteAtom fish
          (.clientMessage 32 winId deleteAtom :: rest) draws delays =
        ⟨.success, draws, delays, rest⟩) := by
  refine ⟨?_, ?_, rfl, fun _ => rfl, ?_⟩
  · simp [handleEvent, Bool.and_eq_true, beq_iff_eq, and_assoc]
  · intro h
    simp only [handleEvent, Bool.and_eq_true, beq_iff_eq, ite_eq_right_iff,
      and_assoc]
    intro hc
    exact absurd hc h
  · intro rest draws delays
    simp [runLoop, handleEvent]

/-- Witness for `close_handshake_exact`: with window id 1 and atom 2, the
non-matching client message `(format 0, window 0, data 0)` leaves the loop
waiting. -/
theorem close_handshake_exact_witness :
    handleEvent 1 2 [] (.clientMessage 0 0 0) = .continueWaiting [] 0 :=
  (close_handshake_exact 1 2 [] 0 0 0).2.1 (by decide)

/-- C5: an error event received while waiting ends the run at once with a
failure whose message carries the error detail; the requests and sleeps
recorded so far are unchanged and every later event stays unprocessed. -/
theorem error_event_aborts (winId deleteAtom : Nat)
    (fish : List (List Point)) (detail : String) (rest : List XEvent)
    (draws : List (List Point)) (delays : Nat) :
    runLoop winId deleteAtom fish (.error detail :: rest) draws delays =
      ⟨.failure ("Got an unexpected error: " ++ detail),
        draws, delays, rest⟩ ∧
    ∃ pre post,
      "Got an unexpected error: " ++ detail = pre ++ detail ++ post := by
  refine ⟨rfl, "Got an unexpected error: ", "", ?_⟩
  simp

/-- C6 counterexample: parsing `"0,0\n"` yields a DrawingSet whose second
polyline is empty, and on an expose event that empty polyline still
receives a connected-line-draw request (the run issues two requests, the
second with zero points). -/
theorem empty_polyline_drawn_cex :
    parseFish "0,0\n" = some [[⟨0, 0⟩], []] ∧
    runLoop 1 2 [[⟨0, 0⟩], []] [.expose] [] 0 =
      ⟨.waiting, [[⟨0, 0⟩], []], 2, []⟩ ∧
    ([] : List Point) ∈ [[Point.mk 0 0], []] := by
  refine ⟨by decide, rfl, by decide⟩

/-- C6 amended: degenerate polylines are neither rejected by the parser
nor skipped by the render loop: an expose event issues exactly one
poly-line request per polyline of the DrawingSet — empty ones included,
whose request carries zero points and draws nothing — with one pacing
delay each. -/
theorem expose_draws_every_polyline (winId deleteAtom : Nat)
    (fish : List (List Point)) :
    handleEvent winId deleteAtom fish .expose =
      .continueWaiting fish fish.length ∧
    runLoop winId deleteAtom fish [.expose] [] 0 =
      ⟨.waiting, fish, fish.length, []⟩ := by
  exact ⟨rfl, by simp [runLoop, handleEvent]⟩

/-- C7: the claim says a malformed token is silently dropped and the row
still parses with the remaining tokens paired in order. Dropping is real
(`"1,a,2"` pairs the survivors `1, 2`), but the row can fail because of
the malformed token: in `"1,2,a,3"` dropping `"a"` leaves three values and
the pairing panics at `item[1]`, while the same row with a numeric token
in that place (`"1,2,5,3"`) parses fine. -/
theorem malformed_token_drop_causes_panic :
    fishLine "1,2,a,3".toList = none ∧
    fishLine "1,2,5,3".toList = some [⟨1, 2⟩, ⟨5, 3⟩] ∧
    fishLine "1,a,2".toList = some [⟨1, 2⟩] := by
  refine ⟨by decide, by decide, by decide⟩

/-- C8: an address without a `:` separator gets the default qualifier
`":0.0"` appended before the connection attempt; an address that already
contains one is passed through unchanged. -/
theorem address_qualifier_normalization (s : String) :
    (s.toList.contains ':' = false → normalizeAddress s = s ++ ":0.0") ∧
    (s.toList.contains ':' = true → normalizeAddress s = s) := by
  constructor <;> intro h <;> unfold normalizeAddress <;> rw [h] <;> rfl

/-- Witness for `address_qualifier_normalization`: `"localhost"` gains the
default qualifier, `"host:1"` is unchanged. -/
theorem address_qualifier_normalization_witness :
    normalizeAddress "localhost" = "localhost" ++ ":0.0" ∧
    normalizeAddress "host:1" = "host:1" :=
  ⟨(address_qualifier_normalization "localhost").1 (by decide),
   (address_qualifier_normalization "host:1").2 (by decide)⟩

/-- C9: with a DrawingSet of zero polylines, an expose event issues zero
poly-line requests, performs zero pacing delays, and the loop is back in
the Waiting state. -/
theorem empty_set_expose_noop (winId deleteAtom : Nat) :
    handleEvent winId deleteAtom [] .expose = .continueWaiting [] 0 ∧
    runLoop winId deleteAtom [] [.expose] [] 0 = ⟨.waiting, [], 0, []⟩ :=
  ⟨rfl, rfl⟩

/-- C10: the `.unwrap()` on the query-parameter map performed when the
`"time"` parameter is read can never panic: it is only reached after the
`"address"` parameter was extracted, which forces the map to be present;
and when the address is absent the handler returns the input error
instead, before the unwrap and before any connection attempt. -/
theorem time_unwrap_safe (params : Option QueryMap) :
    (queryPhase params).isPanicked = false ∧
    (params.bind (fun m => firstVal m "address") = none →
      queryPhase params = .inputError "need address in query params") := by
  constructor
  · cases params with
    | none => rfl
    | some m =>
        cases h : firstVal m "address" <;>
          simp [queryPhase, HandlerStep.isPanicked, h]
  · intro h
    simp [queryPhase, h]

/-- Witness for `time_unwrap_safe`: a request with no query map at all
yields the input error. -/
theorem time_unwrap_safe_witness :
    queryPhase none = .inputError "need address in query params" :=
  (time_unwrap_safe none).2 rfl

end XFish
